import Mathlib

/-!
Verification of the arXiv-paper metadata crawler (`src/crawler.py`).

The Python module normalizes a Semantic Scholar JSON payload into a
validated `ArXivPaper` record (filtering citation/reference entries in
place, recomputing counts) and exposes top-k neighbor selection plus a
`GraphNode` one-hop expansion.  We embed the JSON-shaped values, the
dictionary operations the code performs, and each method of the two
classes as executable Lean functions, then prove or refute the
documented invariants.

Modelling conventions:
* Python dicts are ordered association lists (`Dict`), matching
  insertion order; `d[k] = v` overwrites in place or appends.
* `ArXivPaper.__init__` stores `self.paper = paper`, an alias of the
  caller's object, and every later step mutates `self.paper` in place;
  accordingly `ArXivPaper.construct` returns the final state of that
  very dict, which is also what the caller observes after construction.
* `warnings.warn` calls are modelled as an output list of `Warning`
  values, in emission order.
* Exceptions are modelled with `Except`; `KeyError(k)` from a subscript
  becomes `.keyError k`, the aggregated missing-essential-keys
  `KeyError` (whose message is the fixed prefix followed by the
  comma-joined key list) becomes `.missingKeysError keys`, and
  `TypeError`/`IndexError` keep their messages.
* The external Semantic Scholar fetch (`SemanticScholarMetaDataExtractor`)
  is an opaque capability `Fetcher`; its transport failures are opaque
  `ConstructError` values propagated unchanged.
-/

/-- JSON-shaped Python values as manipulated by `crawler.py`:
`None`, booleans, strings, integers, lists and dicts. -/
inductive JVal where
  | null
  | bool (b : Bool)
  | str (s : String)
  | int (n : Int)
  | list (xs : List JVal)
  | obj (fields : List (String × JVal))
deriving Repr

/-- A Python dict with string keys, in insertion order. -/
abbrev Dict := List (String × JVal)

namespace Dict

/-- `d.get? k`: the value stored at key `k`, if any (first binding wins;
dict keys are unique in the payloads the code builds). -/
def get? (d : Dict) (k : String) : Option JVal :=
  match d with
  | [] => none
  | (k1, v1) :: rest => if k1 = k then some v1 else get? rest k

/-- `k in d` (Python key-membership test). -/
def hasKey (d : Dict) (k : String) : Bool :=
  (d.get? k).isSome

/-- `d[k] = v`: Python in-place assignment; overwrites the binding of
`k` keeping its position, or appends a new binding at the end. -/
def set (d : Dict) (k : String) (v : JVal) : Dict :=
  match d with
  | [] => [(k, v)]
  | (k1, v1) :: rest => if k1 = k then (k, v) :: rest else (k1, v1) :: set rest k v

end Dict

/-- The exceptions `crawler.py` can raise during construction and
lookup, plus opaque transport failures of the external fetcher. -/
inductive ConstructError where
  | typeError (msg : String)
  | keyError (key : String)
  | missingKeysError (missing : List String)
  | indexError (msg : String)
  | fetchFailure (msg : String)
deriving Repr, DecidableEq

/-- The `warnings.warn` diagnostics the module emits. -/
inductive Warning where
  | missingInCache
  | clampCitations (total : Int)
  | clampReferences (total : Int)
deriving Repr, DecidableEq

/-- The dynamic type of the value passed to `ArXivPaper.__init__`:
a string (arXiv identifier), a dict (raw payload), or anything else. -/
inductive Source where
  | pstr (s : String)
  | pdict (d : Dict)
  | other
deriving Repr

/-- The external fetch capability
(`SemanticScholarMetaDataExtractor.get_data_json`). -/
abbrev Fetcher := String → Except ConstructError Dict

namespace JVal

/-- Python `x is True` (identity with the `True` singleton). -/
def pyIsTrue : JVal → Bool
  | .bool true => true
  | _ => false

/-- Python `x is None`. -/
def pyIsNone : JVal → Bool
  | .null => true
  | _ => false

/-- Python `x == 0` on the values that can occur here. -/
def pyEqZero : JVal → Bool
  | .int n => n == 0
  | .bool b => !b
  | _ => false

end JVal

/-- `d[k]` (Python `__getitem__` on a dict): raises `KeyError(k)` when
the key is absent. -/
def Dict.getItem (d : Dict) (k : String) : Except ConstructError JVal :=
  match d.get? k with
  | some v => .ok v
  | none => .error (.keyError k)

/-- `list(filter(pred, xs))`: evaluates `pred` on each element from the
left; the first raised exception aborts the whole construction. -/
def pyFilter (pred : JVal → Except ConstructError Bool) :
    List JVal → Except ConstructError (List JVal)
  | [] => .ok []
  | e :: rest =>
    match pred e with
    | .error err => .error err
    | .ok b =>
      match pyFilter pred rest with
      | .error err => .error err
      | .ok tail => .ok (if b then e :: tail else tail)

/-- The predicate `lambda i: i['isInfluential'] is True`. -/
def entryIsInfluential : JVal → Except ConstructError Bool
  | .obj fields =>
    match Dict.get? fields "isInfluential" with
    | none => .error (.keyError "isInfluential")
    | some v => .ok v.pyIsTrue
  | _ => .error (.typeError "item is not subscriptable")

/-- The predicate `lambda i: i['arxivId'] is not None`. -/
def entryArxivNotNone : JVal → Except ConstructError Bool
  | .obj fields =>
    match Dict.get? fields "arxivId" with
    | none => .error (.keyError "arxivId")
    | some v => .ok (!v.pyIsNone)
  | _ => .error (.typeError "item is not subscriptable")

/-- `self.paper[key] = list(filter(pred, self.paper[key]))`, the common
shape of the four `discard_*` methods. -/
def filterField (d : Dict) (key : String)
    (pred : JVal → Except ConstructError Bool) : Except ConstructError Dict :=
  match d.getItem key with
  | .error e => .error e
  | .ok (.list xs) =>
    match pyFilter pred xs with
    | .error e => .error e
    | .ok ys => .ok (d.set key (.list ys))
  | .ok _ => .error (.typeError "filter argument is not iterable")

namespace ArXivPaper

/-- `self.essential_metadata_keys` (written in the source's order). -/
def essentialMetadataKeys : List String :=
  ["abstract", "arxivId", "authors", "citations", "influentialCitationCount",
   "doi", "fieldsOfStudy", "paperId", "references",
   "title", "topics", "url", "venue", "year"]

/-- The message of the aggregated missing-keys `KeyError`. -/
def missingKeysMessage (missing : List String) : String :=
  "The following essential keys are missing from the paper: " ++
    String.intercalate ", " missing

/-- `check_relevant_keys`: raises a single `KeyError` naming every
essential key absent from the payload. -/
def checkRelevantKeys (d : Dict) : Except ConstructError Unit :=
  match essentialMetadataKeys.filter (fun k => !(Dict.hasKey d k)) with
  | [] => .ok ()
  | missing => .error (.missingKeysError missing)

/-- `check_paper`: a string is resolved through the external fetcher
(with the non-fatal "Paper not present in memory" warning), a dict is
passed through, anything else raises a `TypeError`. -/
def checkPaper (fetch : Fetcher) : Source → Except ConstructError (Dict × List Warning)
  | .pstr s =>
    match fetch s with
    | .error e => .error e
    | .ok d => .ok (d, [Warning.missingInCache])
  | .pdict d => .ok (d, [])
  | .other => .error (.typeError "Paper must be a Dict or an Arxiv Id")

/-- `discard_non_influential_citations`. -/
def discardNonInfluentialCitations (d : Dict) : Except ConstructError Dict :=
  filterField d "citations" entryIsInfluential

/-- `discard_non_influential_references`. -/
def discardNonInfluentialReferences (d : Dict) : Except ConstructError Dict :=
  filterField d "references" entryIsInfluential

/-- `discard_none_arxiv_references`. -/
def discardNoneArxivReferences (d : Dict) : Except ConstructError Dict :=
  filterField d "references" entryArxivNotNone

/-- `discard_none_arxiv_citations`. -/
def discardNoneArxivCitations (d : Dict) : Except ConstructError Dict :=
  filterField d "citations" entryArxivNotNone

/-- `set_num_references`: `self.paper['numReferences'] = len(self.paper['references'])`. -/
def setNumReferences (d : Dict) : Except ConstructError Dict :=
  match d.getItem "references" with
  | .error e => .error e
  | .ok (.list xs) => .ok (d.set "numReferences" (.int xs.length))
  | .ok _ => .error (.typeError "object has no len")

/-- `set_num_citations`: `self.paper['numCitations'] = len(self.paper['citations'])`. -/
def setNumCitations (d : Dict) : Except ConstructError Dict :=
  match d.getItem "citations" with
  | .error e => .error e
  | .ok (.list xs) => .ok (d.set "numCitations" (.int xs.length))
  | .ok _ => .error (.typeError "object has no len")

/-- The part of `ArXivPaper.__init__` that runs after `check_paper`, in
the source's order: key validation, the four filters, then the two
derived counts. -/
def validateAndFilter (d : Dict) : Except ConstructError Dict :=
  (checkRelevantKeys d).bind fun _ =>
  (discardNonInfluentialCitations d).bind fun d1 =>
  (discardNonInfluentialReferences d1).bind fun d2 =>
  (discardNoneArxivReferences d2).bind fun d3 =>
  (discardNoneArxivCitations d3).bind fun d4 =>
  (setNumReferences d4).bind fun d5 =>
  setNumCitations d5

/-- `ArXivPaper(source)`: the whole constructor.  The returned dict is
the final state of `self.paper`; when the source was a dict it is the
caller's own object, mutated in place. -/
def construct (fetch : Fetcher) (source : Source) :
    Except ConstructError (Dict × List Warning) :=
  (checkPaper fetch source).bind fun dw =>
  (validateAndFilter dw.1).bind fun d1 =>
  .ok (d1, dw.2)

/-- `info_keys` of the two `get_top_k_*_information` methods. -/
def infoKeys : List String := ["arxivId", "authors", "title", "url", "venue", "year"]

/-- `{key: val for key, val in citation.items() if key in info_keys}`;
`.items()` on a non-dict raises (AttributeError in Python, folded into
`.typeError` here — unreachable on constructed records). -/
def projectInfo : JVal → Except ConstructError Dict
  | .obj fields => .ok (fields.filter (fun kv => infoKeys.contains kv.1))
  | _ => .error (.typeError "items on a non-dict")

/-- Total form of the same projection, defined on dict entries. -/
def projFields : JVal → Dict
  | .obj fields => fields.filter (fun kv => infoKeys.contains kv.1)
  | _ => []

/-- The `while i < k` loop of the information methods: take the first
`n` entries, projecting each; indexing past the end raises IndexError. -/
def takeProject : List JVal → Nat → Except ConstructError (List Dict)
  | _, 0 => .ok []
  | [], _ + 1 => .error (.indexError "list index out of range")
  | e :: rest, n + 1 =>
    match projectInfo e with
    | .error err => .error err
    | .ok pe =>
      match takeProject rest n with
      | .error err => .error err
      | .ok tail => .ok (pe :: tail)

/-- `get_top_k_citations_information`: clamp `k` to `numCitations` with
a warning when it exceeds it, then return the first `k` citation
entries projected to `info_keys`. -/
def getTopKCitationsInformation (d : Dict) (k : Int) :
    Except ConstructError (List Dict × List Warning) :=
  match d.getItem "numCitations" with
  | .error e => .error e
  | .ok (.int n) =>
    let kc : Int := if n < k then n else k
    let ws : List Warning := if n < k then [.clampCitations n] else []
    match d.getItem "citations" with
    | .error e => .error e
    | .ok (.list xs) =>
      match takeProject xs kc.toNat with
      | .error e => .error e
      | .ok infos => .ok (infos, ws)
    | .ok _ => .error (.typeError "citations value is not subscriptable")
  | .ok _ => .error (.typeError "comparison of int with non-int")

/-- `get_top_k_references_information` (mirror of the citations one). -/
def getTopKReferencesInformation (d : Dict) (k : Int) :
    Except ConstructError (List Dict × List Warning) :=
  match d.getItem "numReferences" with
  | .error e => .error e
  | .ok (.int n) =>
    let kc : Int := if n < k then n else k
    let ws : List Warning := if n < k then [.clampReferences n] else []
    match d.getItem "references" with
    | .error e => .error e
    | .ok (.list xs) =>
      match takeProject xs kc.toNat with
      | .error e => .error e
      | .ok infos => .ok (infos, ws)
    | .ok _ => .error (.typeError "references value is not subscriptable")
  | .ok _ => .error (.typeError "comparison of int with non-int")

/-- How `ArXivPaper(x)` dispatches on the dynamic type of `x`. -/
def sourceOfJVal : JVal → Source
  | .str s => .pstr s
  | .obj fields => .pdict fields
  | _ => .other

/-- The loop shared by the two `get_top_k_*_metadata` methods:
`papers.append(ArXivPaper(entries[i]['arxivId']))` for each selected
entry, in order, with warnings accumulating in emission order. -/
def buildPapers (fetch : Fetcher) :
    List Dict → Except ConstructError (List Dict × List Warning)
  | [] => .ok ([], [])
  | info :: rest =>
    match info.getItem "arxivId" with
    | .error e => .error e
    | .ok v =>
      match construct fetch (sourceOfJVal v) with
      | .error e => .error e
      | .ok (child, ws1) =>
        match buildPapers fetch rest with
        | .error e => .error e
        | .ok (tail, ws2) => .ok (child :: tail, ws1 ++ ws2)

/-- `get_top_k_citations_metadata`. -/
def getTopKCitationsMetadata (fetch : Fetcher) (d : Dict) (k : Int) :
    Except ConstructError (List Dict × List Warning) :=
  match getTopKCitationsInformation d k with
  | .error e => .error e
  | .ok (infos, ws) =>
    match buildPapers fetch infos with
    | .error e => .error e
    | .ok (papers, ws2) => .ok (papers, ws ++ ws2)

/-- `get_top_k_references_metadata`. -/
def getTopKReferencesMetadata (fetch : Fetcher) (d : Dict) (k : Int) :
    Except ConstructError (List Dict × List Warning) :=
  match getTopKReferencesInformation d k with
  | .error e => .error e
  | .ok (infos, ws) =>
    match buildPapers fetch infos with
    | .error e => .error e
    | .ok (papers, ws2) => .ok (papers, ws ++ ws2)

end ArXivPaper

/-- A `GraphNode`: a validated record (its dict), the two fan-outs, and
the lazily-populated children, `None` until first populated. -/
structure GraphNode where
  paper : Dict
  num_citations : Int
  num_references : Int
  citation_children : Option (List Dict)
  reference_children : Option (List Dict)
deriving Repr

namespace GraphNode

/-- `GraphNode.__init__`: children start out absent (`None`). -/
def make (paper : Dict) (num_citations num_references : Int) : GraphNode :=
  ⟨paper, num_citations, num_references, none, none⟩

/-- `is_citation_leaf`: `self.paper['numCitations'] == 0`. -/
def isCitationLeaf (g : GraphNode) : Except ConstructError Bool :=
  match g.paper.getItem "numCitations" with
  | .error e => .error e
  | .ok v => .ok v.pyEqZero

/-- `is_reference_leaf`: `self.paper['numReferences'] == 0`. -/
def isReferenceLeaf (g : GraphNode) : Except ConstructError Bool :=
  match g.paper.getItem "numReferences" with
  | .error e => .error e
  | .ok v => .ok v.pyEqZero

/-- `get_citation_children`: populate `citation_children` unless the
node is a citation leaf; returns the updated node and the emitted
warnings. -/
def getCitationChildren (g : GraphNode) : Except ConstructError (GraphNode × List Warning) :=
  match g.isCitationLeaf with
  | .error e => .error e
  | .ok true => .ok (g, [])
  | .ok false =>
    match ArXivPaper.getTopKCitationsInformation g.paper g.num_citations with
    | .error e => .error e
    | .ok (infos, ws) =>
      .ok (⟨g.paper, g.num_citations, g.num_references, some infos, g.reference_children⟩, ws)

/-- `get_reference_children` (mirror). -/
def getReferenceChildren (g : GraphNode) : Except ConstructError (GraphNode × List Warning) :=
  match g.isReferenceLeaf with
  | .error e => .error e
  | .ok true => .ok (g, [])
  | .ok false =>
    match ArXivPaper.getTopKReferencesInformation g.paper g.num_references with
    | .error e => .error e
    | .ok (infos, ws) =>
      .ok (⟨g.paper, g.num_citations, g.num_references, g.citation_children, some infos⟩, ws)

end GraphNode

/-! ## Basic lemmas about the dict operations -/

theorem Dict.get?_set_self (d : Dict) (k : String) (v : JVal) :
    (d.set k v).get? k = some v := by
  induction d with
  | nil => simp [Dict.set, Dict.get?]
  | cons p rest ih =>
    obtain ⟨k1, v1⟩ := p
    by_cases hk : k1 = k
    · subst hk
      simp [Dict.set, Dict.get?]
    · simp [Dict.set, hk, Dict.get?]
      exact ih

theorem Dict.get?_set_ne (d : Dict) (k k2 : String) (v : JVal) (h : k2 ≠ k) :
    (d.set k v).get? k2 = d.get? k2 := by
  induction d with
  | nil =>
    simp [Dict.set, Dict.get?, h.symm]
  | cons p rest ih =>
    obtain ⟨k1, v1⟩ := p
    by_cases hk : k1 = k
    · subst hk
      simp [Dict.set, Dict.get?, h.symm]
    · simp [Dict.set, hk, Dict.get?]
      by_cases hk2 : k1 = k2
      · simp [hk2]
      · simp [hk2]
        exact ih

theorem Dict.getItem_eq_get? (d : Dict) (k : String) (v : JVal)
    (h : d.get? k = some v) : d.getItem k = .ok v := by
  simp [Dict.getItem, h]

/-! ## Lemmas about the Python `filter` embedding -/

theorem pyFilter_ok_mem {pred : JVal → Except ConstructError Bool}
    {xs ys : List JVal} (h : pyFilter pred xs = .ok ys) :
    ∀ e ∈ ys, e ∈ xs ∧ pred e = .ok true := by
  induction xs generalizing ys with
  | nil =>
    simp [pyFilter] at h
    subst h
    simp
  | cons x rest ih =>
    simp only [pyFilter] at h
    cases hp : pred x with
    | error err => simp [hp] at h
    | ok b =>
      cases hr : pyFilter pred rest with
      | error err => simp [hp, hr] at h
      | ok tail =>
        simp [hp, hr] at h
        cases b with
        | true =>
          simp at h
          subst h
          intro e he
          rcases List.mem_cons.mp he with rfl | he
          · exact ⟨List.mem_cons_self _ _, hp⟩
          · rcases ih hr e he with ⟨h1, h2⟩
            exact ⟨List.mem_cons_of_mem x h1, h2⟩
        | false =>
          simp at h
          subst h
          intro e he
          rcases ih hr e he with ⟨h1, h2⟩
          exact ⟨List.mem_cons_of_mem x h1, h2⟩

theorem pyFilter_ok_input {pred : JVal → Except ConstructError Bool}
    {xs ys : List JVal} (h : pyFilter pred xs = .ok ys) :
    ∀ e ∈ xs, ∃ b, pred e = .ok b := by
  induction xs generalizing ys with
  | nil => simp
  | cons x rest ih =>
    simp only [pyFilter] at h
    cases hp : pred x with
    | error err => simp [hp] at h
    | ok b =>
      cases hr : pyFilter pred rest with
      | error err => simp [hp, hr] at h
      | ok tail =>
        intro e he
        rcases List.mem_cons.mp he with he | he
        · subst he
          exact ⟨b, hp⟩
        · exact ih hr e he

theorem pyFilter_ok_keeps {pred : JVal → Except ConstructError Bool}
    {xs ys : List JVal} (h : pyFilter pred xs = .ok ys) :
    ∀ e ∈ xs, pred e = .ok true → e ∈ ys := by
  induction xs generalizing ys with
  | nil => simp
  | cons x rest ih =>
    simp only [pyFilter] at h
    cases hp : pred x with
    | error err => simp [hp] at h
    | ok b =>
      cases hr : pyFilter pred rest with
      | error err => simp [hp, hr] at h
      | ok tail =>
        simp [hp, hr] at h
        intro e he hpe
        rcases List.mem_cons.mp he with he | he
        · subst he
          rw [hpe] at hp
          cases hp
          simp at h
          subst h
          exact List.mem_cons_self e tail
        · cases b with
          | true =>
            simp at h
            subst h
            exact List.mem_cons_of_mem x (ih hr e he hpe)
          | false =>
            simp at h
            subst h
            exact ih hr e he hpe

theorem pyFilter_sublist {pred : JVal → Except ConstructError Bool}
    {xs ys : List JVal} (h : pyFilter pred xs = .ok ys) : ys.Sublist xs := by
  induction xs generalizing ys with
  | nil =>
    simp [pyFilter] at h
    subst h
    exact List.Sublist.refl []
  | cons x rest ih =>
    simp only [pyFilter] at h
    cases hp : pred x with
    | error err => simp [hp] at h
    | ok b =>
      cases hr : pyFilter pred rest with
      | error err => simp [hp, hr] at h
      | ok tail =>
        simp [hp, hr] at h
        cases b with
        | true =>
          simp at h
          subst h
          exact List.Sublist.cons₂ x (ih hr)
        | false =>
          simp at h
          subst h
          exact List.Sublist.cons x (ih hr)

theorem pyFilter_error {pred : JVal → Except ConstructError Bool}
    {xs : List JVal} {err : ConstructError}
    (hall : ∀ x ∈ xs, (∃ b, pred x = .ok b) ∨ pred x = .error err)
    (hsome : ∃ x ∈ xs, pred x = .error err) :
    pyFilter pred xs = .error err := by
  induction xs with
  | nil => simp at hsome
  | cons x rest ih =>
    simp only [pyFilter]
    rcases hall x (List.mem_cons_self x rest) with ⟨b, hb⟩ | hb
    · rw [hb]
      have hrest : pyFilter pred rest = .error err := by
        apply ih
        · intro y hy
          exact hall y (List.mem_cons_of_mem x hy)
        · rcases hsome with ⟨y, hy, hpy⟩
          rcases List.mem_cons.mp hy with hy | hy
          · subst hy
            rw [hpy] at hb
            cases hb
          · exact ⟨y, hy, hpy⟩
      rw [hrest]
    · rw [hb]

/-! ## Characterizations of the construction pipeline steps -/

theorem exceptBind_ok_iff {ε α β : Type} {x : Except ε α} {f : α → Except ε β} {b : β} :
    x.bind f = .ok b ↔ ∃ a, x = .ok a ∧ f a = .ok b := by
  cases x <;> simp [Except.bind]

theorem exceptBind_error_of_error {ε α β : Type} {x : Except ε α} {e : ε}
    (f : α → Except ε β) (h : x = .error e) : x.bind f = .error e := by
  subst h
  rfl

theorem exceptBind_ok_left {ε α β : Type} {x : Except ε α} {a : α}
    (f : α → Except ε β) (h : x = .ok a) : x.bind f = f a := by
  subst h
  rfl

theorem filterField_ok_iff {d d2 : Dict} {key : String}
    {pred : JVal → Except ConstructError Bool} :
    filterField d key pred = .ok d2 ↔
    ∃ xs ys, Dict.get? d key = some (.list xs) ∧ pyFilter pred xs = .ok ys ∧
      d2 = d.set key (.list ys) := by
  unfold filterField Dict.getItem
  cases hg : Dict.get? d key with
  | none => simp
  | some v =>
    cases v with
    | null => simp
    | bool b => simp
    | str s => simp
    | int n => simp
    | list xs =>
      cases hf : pyFilter pred xs with
      | error e => simp [hf]
      | ok ys =>
        simp [hf]
        constructor
        · intro h
          exact h.symm
        · intro h
          exact h.symm
    | obj fs => simp

theorem filterField_error_of_filter {d : Dict} {key : String}
    {pred : JVal → Except ConstructError Bool} {xs : List JVal} {err : ConstructError}
    (hg : Dict.get? d key = some (.list xs)) (hf : pyFilter pred xs = .error err) :
    filterField d key pred = .error err := by
  unfold filterField Dict.getItem
  rw [hg]
  simp [hf]

theorem setNumReferences_ok_iff {d d2 : Dict} :
    ArXivPaper.setNumReferences d = .ok d2 ↔
    ∃ xs, Dict.get? d "references" = some (.list xs) ∧
      d2 = d.set "numReferences" (.int xs.length) := by
  unfold ArXivPaper.setNumReferences Dict.getItem
  cases hg : Dict.get? d "references" with
  | none => simp
  | some v =>
    cases v with
    | null => simp
    | bool b => simp
    | str s => simp
    | int n => simp
    | list xs =>
      simp
      constructor
      · intro h
        exact h.symm
      · intro h
        exact h.symm
    | obj fs => simp

theorem setNumCitations_ok_iff {d d2 : Dict} :
    ArXivPaper.setNumCitations d = .ok d2 ↔
    ∃ xs, Dict.get? d "citations" = some (.list xs) ∧
      d2 = d.set "numCitations" (.int xs.length) := by
  unfold ArXivPaper.setNumCitations Dict.getItem
  cases hg : Dict.get? d "citations" with
  | none => simp
  | some v =>
    cases v with
    | null => simp
    | bool b => simp
    | str s => simp
    | int n => simp
    | list xs =>
      simp
      constructor
      · intro h
        exact h.symm
      · intro h
        exact h.symm
    | obj fs => simp

theorem checkRelevantKeys_ok_iff {d : Dict} :
    ArXivPaper.checkRelevantKeys d = .ok () ↔
    ∀ k ∈ ArXivPaper.essentialMetadataKeys, Dict.hasKey d k = true := by
  unfold ArXivPaper.checkRelevantKeys
  cases hm : ArXivPaper.essentialMetadataKeys.filter (fun k => !(Dict.hasKey d k)) with
  | nil =>
    simp
    intro k hk
    have := List.filter_eq_nil_iff.mp hm k hk
    simpa using this
  | cons a l =>
    simp
    have ha : a ∈ ArXivPaper.essentialMetadataKeys.filter (fun k => !(Dict.hasKey d k)) := by
      rw [hm]
      exact List.mem_cons_self _ _
    refine ⟨a, List.mem_of_mem_filter ha, ?_⟩
    have := List.of_mem_filter ha
    simpa using this

theorem checkRelevantKeys_missing {d : Dict} {ms : List String}
    (hms : ms = ArXivPaper.essentialMetadataKeys.filter (fun k => !(Dict.hasKey d k)))
    (hne : ms ≠ []) :
    ArXivPaper.checkRelevantKeys d = .error (.missingKeysError ms) := by
  unfold ArXivPaper.checkRelevantKeys
  rw [← hms]
  cases ms with
  | nil => exact absurd rfl hne
  | cons a l => rfl

theorem checkPaper_pdict (fetch : Fetcher) (d : Dict) :
    ArXivPaper.checkPaper fetch (.pdict d) = .ok (d, []) := rfl

theorem checkPaper_other (fetch : Fetcher) :
    ArXivPaper.checkPaper fetch .other =
      .error (.typeError "Paper must be a Dict or an Arxiv Id") := rfl

theorem checkPaper_pstr_ok {fetch : Fetcher} {s : String} {d : Dict}
    (h : fetch s = .ok d) :
    ArXivPaper.checkPaper fetch (.pstr s) = .ok (d, [Warning.missingInCache]) := by
  simp [ArXivPaper.checkPaper, h]

theorem checkPaper_pstr_error {fetch : Fetcher} {s : String} {e : ConstructError}
    (h : fetch s = .error e) :
    ArXivPaper.checkPaper fetch (.pstr s) = .error e := by
  simp [ArXivPaper.checkPaper, h]

/-- The shape of a successfully validated record: the caller's dict
after the four in-place filter assignments and the two count
assignments, in the order `__init__` performs them. -/
def ArXivPaper.finalDict (d : Dict) (cs1 rs1 rs2 cs2 : List JVal) : Dict :=
  (((((d.set "citations" (.list cs1)).set "references" (.list rs1)).set
      "references" (.list rs2)).set "citations" (.list cs2)).set
      "numReferences" (.int rs2.length)).set "numCitations" (.int cs2.length)

theorem finalDict_get_citations (d : Dict) (cs1 rs1 rs2 cs2 : List JVal) :
    (ArXivPaper.finalDict d cs1 rs1 rs2 cs2).get? "citations" = some (.list cs2) := by
  unfold ArXivPaper.finalDict
  rw [Dict.get?_set_ne _ _ _ _ (by decide), Dict.get?_set_ne _ _ _ _ (by decide),
    Dict.get?_set_self]

theorem finalDict_get_references (d : Dict) (cs1 rs1 rs2 cs2 : List JVal) :
    (ArXivPaper.finalDict d cs1 rs1 rs2 cs2).get? "references" = some (.list rs2) := by
  unfold ArXivPaper.finalDict
  rw [Dict.get?_set_ne _ _ _ _ (by decide), Dict.get?_set_ne _ _ _ _ (by decide),
    Dict.get?_set_ne _ _ _ _ (by decide), Dict.get?_set_self]

theorem finalDict_get_numCitations (d : Dict) (cs1 rs1 rs2 cs2 : List JVal) :
    (ArXivPaper.finalDict d cs1 rs1 rs2 cs2).get? "numCitations" =
      some (.int cs2.length) := by
  unfold ArXivPaper.finalDict
  rw [Dict.get?_set_self]

theorem finalDict_get_numReferences (d : Dict) (cs1 rs1 rs2 cs2 : List JVal) :
    (ArXivPaper.finalDict d cs1 rs1 rs2 cs2).get? "numReferences" =
      some (.int rs2.length) := by
  unfold ArXivPaper.finalDict
  rw [Dict.get?_set_ne _ _ _ _ (by decide), Dict.get?_set_self]

theorem finalDict_get_other (d : Dict) (cs1 rs1 rs2 cs2 : List JVal) (k : String)
    (h1 : k ≠ "citations") (h2 : k ≠ "references")
    (h3 : k ≠ "numCitations") (h4 : k ≠ "numReferences") :
    (ArXivPaper.finalDict d cs1 rs1 rs2 cs2).get? k = d.get? k := by
  unfold ArXivPaper.finalDict
  rw [Dict.get?_set_ne _ _ _ _ h3, Dict.get?_set_ne _ _ _ _ h4,
    Dict.get?_set_ne _ _ _ _ h1, Dict.get?_set_ne _ _ _ _ h2,
    Dict.get?_set_ne _ _ _ _ h2, Dict.get?_set_ne _ _ _ _ h1]

theorem validateAndFilter_ok {d d6 : Dict}
    (h : ArXivPaper.validateAndFilter d = .ok d6) :
    ∃ cs rs cs1 rs1 rs2 cs2,
      ArXivPaper.checkRelevantKeys d = .ok () ∧
      Dict.get? d "citations" = some (.list cs) ∧
      Dict.get? d "references" = some (.list rs) ∧
      pyFilter entryIsInfluential cs = .ok cs1 ∧
      pyFilter entryIsInfluential rs = .ok rs1 ∧
      pyFilter entryArxivNotNone rs1 = .ok rs2 ∧
      pyFilter entryArxivNotNone cs1 = .ok cs2 ∧
      d6 = ArXivPaper.finalDict d cs1 rs1 rs2 cs2 := by
  simp only [ArXivPaper.validateAndFilter, exceptBind_ok_iff] at h
  obtain ⟨u, hck, d1, hd1, d2, hd2, d3, hd3, d4, hd4, d5, hd5, h6⟩ := h
  unfold ArXivPaper.discardNonInfluentialCitations at hd1
  rw [filterField_ok_iff] at hd1
  obtain ⟨cs, cs1, hgc, hfc, rfl⟩ := hd1
  unfold ArXivPaper.discardNonInfluentialReferences at hd2
  rw [filterField_ok_iff] at hd2
  obtain ⟨rs, rs1, hgr, hfr, rfl⟩ := hd2
  rw [Dict.get?_set_ne _ _ _ _ (by decide)] at hgr
  unfold ArXivPaper.discardNoneArxivReferences at hd3
  rw [filterField_ok_iff] at hd3
  obtain ⟨rs1x, rs2, hgr2, hfr2, rfl⟩ := hd3
  rw [Dict.get?_set_self] at hgr2
  simp only [Option.some.injEq, JVal.list.injEq] at hgr2
  subst hgr2
  unfold ArXivPaper.discardNoneArxivCitations at hd4
  rw [filterField_ok_iff] at hd4
  obtain ⟨cs1x, cs2, hgc2, hfc2, rfl⟩ := hd4
  rw [Dict.get?_set_ne _ _ _ _ (by decide), Dict.get?_set_ne _ _ _ _ (by decide),
    Dict.get?_set_self] at hgc2
  simp only [Option.some.injEq, JVal.list.injEq] at hgc2
  subst hgc2
  rw [setNumReferences_ok_iff] at hd5
  obtain ⟨rs2x, hgr3, rfl⟩ := hd5
  rw [Dict.get?_set_ne _ _ _ _ (by decide), Dict.get?_set_self] at hgr3
  simp only [Option.some.injEq, JVal.list.injEq] at hgr3
  subst hgr3
  rw [setNumCitations_ok_iff] at h6
  obtain ⟨cs2x, hgc3, rfl⟩ := h6
  rw [Dict.get?_set_ne _ _ _ _ (by decide), Dict.get?_set_self] at hgc3
  simp only [Option.some.injEq, JVal.list.injEq] at hgc3
  subst hgc3
  exact ⟨cs, rs, cs1, rs1, rs2, cs2, hck, hgc, hgr, hfc, hfr, hfr2, hfc2, rfl⟩

theorem construct_ok_iff {fetch : Fetcher} {src : Source} {d1 : Dict}
    {ws : List Warning} :
    ArXivPaper.construct fetch src = .ok (d1, ws) ↔
    ∃ d0, ArXivPaper.checkPaper fetch src = .ok (d0, ws) ∧
      ArXivPaper.validateAndFilter d0 = .ok d1 := by
  unfold ArXivPaper.construct
  simp only [exceptBind_ok_iff]
  constructor
  · rintro ⟨⟨d0, ws0⟩, hcp, a, hva, heq⟩
    simp only [Except.ok.injEq, Prod.mk.injEq] at heq
    obtain ⟨rfl, rfl⟩ := heq
    exact ⟨d0, hcp, hva⟩
  · rintro ⟨d0, hcp, hva⟩
    exact ⟨(d0, ws), hcp, d1, hva, rfl⟩

/-! ## Characterizations of the two filter predicates -/

theorem JVal.pyIsTrue_iff {v : JVal} : v.pyIsTrue = true ↔ v = .bool true := by
  cases v with
  | null => simp [JVal.pyIsTrue]
  | bool b => cases b <;> simp [JVal.pyIsTrue]
  | str s => simp [JVal.pyIsTrue]
  | int n => simp [JVal.pyIsTrue]
  | list xs => simp [JVal.pyIsTrue]
  | obj fs => simp [JVal.pyIsTrue]

theorem JVal.pyIsNone_false_iff {v : JVal} : v.pyIsNone = false ↔ v ≠ .null := by
  cases v with
  | null => simp [JVal.pyIsNone]
  | bool b => simp [JVal.pyIsNone]
  | str s => simp [JVal.pyIsNone]
  | int n => simp [JVal.pyIsNone]
  | list xs => simp [JVal.pyIsNone]
  | obj fs => simp [JVal.pyIsNone]

theorem JVal.not_pyIsNone_iff {v : JVal} : (!v.pyIsNone) = true ↔ v ≠ .null := by
  cases v with
  | null => simp [JVal.pyIsNone]
  | bool b => simp [JVal.pyIsNone]
  | str s => simp [JVal.pyIsNone]
  | int n => simp [JVal.pyIsNone]
  | list xs => simp [JVal.pyIsNone]
  | obj fs => simp [JVal.pyIsNone]

theorem entryIsInfluential_ok_true_iff {e : JVal} :
    entryIsInfluential e = .ok true ↔
    ∃ f, e = .obj f ∧ Dict.get? f "isInfluential" = some (.bool true) := by
  cases e with
  | null => simp [entryIsInfluential]
  | bool b => simp [entryIsInfluential]
  | str s => simp [entryIsInfluential]
  | int n => simp [entryIsInfluential]
  | list xs => simp [entryIsInfluential]
  | obj f =>
    simp only [entryIsInfluential]
    cases hg : Dict.get? f "isInfluential" with
    | none => simp [hg]
    | some v => simp [hg, JVal.pyIsTrue_iff]

theorem entryIsInfluential_ok_val {e : JVal} {b : Bool}
    (h : entryIsInfluential e = .ok b) :
    ∃ f v, e = .obj f ∧ Dict.get? f "isInfluential" = some v ∧ v.pyIsTrue = b := by
  cases e with
  | null => simp [entryIsInfluential] at h
  | bool c => simp [entryIsInfluential] at h
  | str s => simp [entryIsInfluential] at h
  | int n => simp [entryIsInfluential] at h
  | list xs => simp [entryIsInfluential] at h
  | obj f =>
    simp only [entryIsInfluential] at h
    cases hg : Dict.get? f "isInfluential" with
    | none => rw [hg] at h; cases h
    | some v =>
      rw [hg] at h
      simp at h
      exact ⟨f, v, rfl, hg, h⟩

theorem entryIsInfluential_error_of_missing {f : List (String × JVal)}
    (h : Dict.get? f "isInfluential" = none) :
    entryIsInfluential (.obj f) = .error (.keyError "isInfluential") := by
  simp only [entryIsInfluential]
  rw [h]

theorem entryArxivNotNone_ok_true_iff {e : JVal} :
    entryArxivNotNone e = .ok true ↔
    ∃ f a, e = .obj f ∧ Dict.get? f "arxivId" = some a ∧ a ≠ .null := by
  cases e with
  | null => simp [entryArxivNotNone]
  | bool b => simp [entryArxivNotNone]
  | str s => simp [entryArxivNotNone]
  | int n => simp [entryArxivNotNone]
  | list xs => simp [entryArxivNotNone]
  | obj f =>
    simp only [entryArxivNotNone]
    cases hg : Dict.get? f "arxivId" with
    | none => simp [hg]
    | some v => simp [hg, JVal.pyIsNone_false_iff]

theorem entryArxivNotNone_ok_val {e : JVal} {b : Bool}
    (h : entryArxivNotNone e = .ok b) :
    ∃ f v, e = .obj f ∧ Dict.get? f "arxivId" = some v ∧ (!v.pyIsNone) = b := by
  cases e with
  | null => simp [entryArxivNotNone] at h
  | bool c => simp [entryArxivNotNone] at h
  | str s => simp [entryArxivNotNone] at h
  | int n => simp [entryArxivNotNone] at h
  | list xs => simp [entryArxivNotNone] at h
  | obj f =>
    simp only [entryArxivNotNone] at h
    cases hg : Dict.get? f "arxivId" with
    | none => rw [hg] at h; cases h
    | some v =>
      rw [hg] at h
      simp at h
      refine ⟨f, v, rfl, hg, ?_⟩
      rw [h]
      simp

/-! ## Error propagation through the pipeline -/

theorem validateAndFilter_error_checkKeys {d : Dict} {e : ConstructError}
    (h : ArXivPaper.checkRelevantKeys d = .error e) :
    ArXivPaper.validateAndFilter d = .error e := by
  unfold ArXivPaper.validateAndFilter
  rw [h]
  rfl

theorem validateAndFilter_error_citationFilter {d : Dict} {xs : List JVal}
    {err : ConstructError}
    (hck : ArXivPaper.checkRelevantKeys d = .ok ())
    (hgc : Dict.get? d "citations" = some (.list xs))
    (hf : pyFilter entryIsInfluential xs = .error err) :
    ArXivPaper.validateAndFilter d = .error err := by
  unfold ArXivPaper.validateAndFilter
  rw [hck]
  have h1 : ArXivPaper.discardNonInfluentialCitations d = .error err :=
    filterField_error_of_filter hgc hf
  rw [exceptBind_ok_left, exceptBind_error_of_error _ h1]
  rfl

theorem construct_pdict_error {fetch : Fetcher} {d : Dict} {e : ConstructError}
    (h : ArXivPaper.validateAndFilter d = .error e) :
    ArXivPaper.construct fetch (.pdict d) = .error e := by
  unfold ArXivPaper.construct
  rw [exceptBind_ok_left _ (checkPaper_pdict fetch d)]
  rw [exceptBind_error_of_error _ h]

/-! ## Concrete data used to exercise the theorems -/

/-- A fetcher standing in for an unreachable network (no test below
actually consults it unless stated). -/
def emptyFetch : Fetcher := fun _ => .error (.fetchFailure "network unavailable")

/-- An influential citation entry carrying all projection keys. -/
def sampleCitation1 : JVal :=
  .obj [("isInfluential", .bool true), ("arxivId", .str "1111.0001"),
        ("title", .str "C one"), ("authors", .list []), ("url", .str "u1"),
        ("venue", .str "v1"), ("year", .int 2019)]

/-- A non-influential citation entry (its `arxivId` is `None`). -/
def sampleCitation2 : JVal :=
  .obj [("isInfluential", .bool false), ("arxivId", .null)]

/-- An influential citation entry whose `arxivId` is `None`. -/
def sampleCitation3 : JVal :=
  .obj [("isInfluential", .bool true), ("arxivId", .null), ("title", .str "C three")]

/-- An influential reference entry with an arXiv id. -/
def sampleReference1 : JVal :=
  .obj [("isInfluential", .bool true), ("arxivId", .str "2222.0002"), ("title", .str "R one")]

/-- A non-influential reference entry with an arXiv id. -/
def sampleReference2 : JVal :=
  .obj [("isInfluential", .bool false), ("arxivId", .str "3333.0003")]

/-- A raw payload carrying all fourteen essential keys, three citation
entries (one surviving both filters) and two reference entries (one
surviving). -/
def samplePayload : Dict :=
  [("abstract", .str "a"), ("arxivId", .str "0000.0000"), ("authors", .list []),
   ("citations", .list [sampleCitation1, sampleCitation2, sampleCitation3]),
   ("influentialCitationCount", .int 1), ("doi", .str "d"), ("fieldsOfStudy", .list []),
   ("paperId", .str "p"), ("references", .list [sampleReference1, sampleReference2]),
   ("title", .str "t"), ("topics", .list []), ("url", .str "u"),
   ("venue", .str "v"), ("year", .int 2020)]

/-- What `ArXivPaper(samplePayload)` leaves in `self.paper` (which is
the caller's own dict): filtered lists and the two appended counts. -/
def sampleRecord : Dict :=
  [("abstract", .str "a"), ("arxivId", .str "0000.0000"), ("authors", .list []),
   ("citations", .list [sampleCitation1]),
   ("influentialCitationCount", .int 1), ("doi", .str "d"), ("fieldsOfStudy", .list []),
   ("paperId", .str "p"), ("references", .list [sampleReference1]),
   ("title", .str "t"), ("topics", .list []), ("url", .str "u"),
   ("venue", .str "v"), ("year", .int 2020),
   ("numReferences", .int 1), ("numCitations", .int 1)]

theorem sample_construct :
    ArXivPaper.construct emptyFetch (.pdict samplePayload) = .ok (sampleRecord, []) := rfl

/-! ## The claims -/

/-- C1: for every successfully constructed record, every entry remaining
in its `citations` and `references` collections is a dict whose
`isInfluential` flag is the boolean `True` and whose `arxivId` is
present and not `None`. -/
theorem construct_influential_arxiv_invariant
    (fetch : Fetcher) (src : Source) (d : Dict) (ws : List Warning)
    (h : ArXivPaper.construct fetch src = .ok (d, ws)) :
    ∃ cs rs, Dict.get? d "citations" = some (.list cs) ∧
      Dict.get? d "references" = some (.list rs) ∧
      (∀ e ∈ cs, ∃ f, e = .obj f ∧
        Dict.get? f "isInfluential" = some (.bool true) ∧
        ∃ a, Dict.get? f "arxivId" = some a ∧ a ≠ .null) ∧
      (∀ e ∈ rs, ∃ f, e = .obj f ∧
        Dict.get? f "isInfluential" = some (.bool true) ∧
        ∃ a, Dict.get? f "arxivId" = some a ∧ a ≠ .null) := by
  rw [construct_ok_iff] at h
  obtain ⟨d0, hcp, hva⟩ := h
  obtain ⟨cs0, rs0, cs1, rs1, rs2, cs2, hck, hgc, hgr, hfc, hfr, hfr2, hfc2, rfl⟩ :=
    validateAndFilter_ok hva
  refine ⟨cs2, rs2, finalDict_get_citations _ _ _ _ _,
    finalDict_get_references _ _ _ _ _, ?_, ?_⟩
  · intro e he
    obtain ⟨he1, hax⟩ := pyFilter_ok_mem hfc2 e he
    obtain ⟨-, hinf⟩ := pyFilter_ok_mem hfc e he1
    obtain ⟨f, rfl, hif⟩ := entryIsInfluential_ok_true_iff.mp hinf
    obtain ⟨f2, a, hobj, ha, hnn⟩ := entryArxivNotNone_ok_true_iff.mp hax
    injection hobj with h2
    subst h2
    exact ⟨f, rfl, hif, a, ha, hnn⟩
  · intro e he
    obtain ⟨he1, hax⟩ := pyFilter_ok_mem hfr2 e he
    obtain ⟨-, hinf⟩ := pyFilter_ok_mem hfr e he1
    obtain ⟨f, rfl, hif⟩ := entryIsInfluential_ok_true_iff.mp hinf
    obtain ⟨f2, a, hobj, ha, hnn⟩ := entryArxivNotNone_ok_true_iff.mp hax
    injection hobj with h2
    subst h2
    exact ⟨f, rfl, hif, a, ha, hnn⟩

theorem construct_influential_arxiv_invariant_witness :
    ArXivPaper.construct emptyFetch (.pdict samplePayload) = .ok (sampleRecord, []) ∧
    (∃ cs rs, Dict.get? sampleRecord "citations" = some (.list cs) ∧
      Dict.get? sampleRecord "references" = some (.list rs) ∧
      (∀ e ∈ cs, ∃ f, e = .obj f ∧
        Dict.get? f "isInfluential" = some (.bool true) ∧
        ∃ a, Dict.get? f "arxivId" = some a ∧ a ≠ .null) ∧
      (∀ e ∈ rs, ∃ f, e = .obj f ∧
        Dict.get? f "isInfluential" = some (.bool true) ∧
        ∃ a, Dict.get? f "arxivId" = some a ∧ a ≠ .null)) :=
  ⟨sample_construct,
   construct_influential_arxiv_invariant emptyFetch (.pdict samplePayload)
     sampleRecord [] sample_construct⟩

/-- C2: for every successfully constructed record, `numCitations` equals
the length of the filtered `citations` list and `numReferences` the
length of the filtered `references` list; the counts are recomputed, so
this holds whatever counts the upstream payload carried. -/
theorem construct_count_consistency
    (fetch : Fetcher) (src : Source) (d : Dict) (ws : List Warning)
    (h : ArXivPaper.construct fetch src = .ok (d, ws)) :
    ∃ cs rs, Dict.get? d "citations" = some (.list cs) ∧
      Dict.get? d "references" = some (.list rs) ∧
      Dict.get? d "numCitations" = some (.int cs.length) ∧
      Dict.get? d "numReferences" = some (.int rs.length) := by
  rw [construct_ok_iff] at h
  obtain ⟨d0, hcp, hva⟩ := h
  obtain ⟨cs0, rs0, cs1, rs1, rs2, cs2, hck, hgc, hgr, hfc, hfr, hfr2, hfc2, rfl⟩ :=
    validateAndFilter_ok hva
  exact ⟨cs2, rs2, finalDict_get_citations _ _ _ _ _, finalDict_get_references _ _ _ _ _,
    finalDict_get_numCitations _ _ _ _ _, finalDict_get_numReferences _ _ _ _ _⟩

/-- A payload carrying bogus upstream counts, used to check that the
derived counts are recomputed rather than trusted. -/
def bogusCountPayload : Dict :=
  samplePayload ++ [("numCitations", .int 99), ("numReferences", .int 88)]

/-- What constructing from `bogusCountPayload` leaves behind: the bogus
counts are overwritten in place with the recomputed ones. -/
def bogusCountRecord : Dict :=
  sampleRecord.take 14 ++ [("numCitations", .int 1), ("numReferences", .int 1)]

theorem bogus_construct :
    ArXivPaper.construct emptyFetch (.pdict bogusCountPayload) =
      .ok (bogusCountRecord, []) := rfl

theorem construct_count_consistency_witness :
    ArXivPaper.construct emptyFetch (.pdict bogusCountPayload) = .ok (bogusCountRecord, []) ∧
    (∃ cs rs, Dict.get? bogusCountRecord "citations" = some (.list cs) ∧
      Dict.get? bogusCountRecord "references" = some (.list rs) ∧
      Dict.get? bogusCountRecord "numCitations" = some (.int cs.length) ∧
      Dict.get? bogusCountRecord "numReferences" = some (.int rs.length)) :=
  ⟨bogus_construct,
   construct_count_consistency emptyFetch (.pdict bogusCountPayload)
     bogusCountRecord [] bogus_construct⟩

/-- C3 (counterexample): construction is not pure.  `self.paper` aliases
the caller's dict, so after `ArXivPaper(samplePayload)` succeeds the
caller's mapping is `sampleRecord`: it has gained a `numCitations` key
and its `citations` list has shrunk from three entries to one. -/
theorem construct_mutates_payload_counterexample :
    ArXivPaper.construct emptyFetch (.pdict samplePayload) = .ok (sampleRecord, []) ∧
    Dict.hasKey samplePayload "numCitations" = false ∧
    Dict.hasKey sampleRecord "numCitations" = true ∧
    Dict.get? samplePayload "citations" =
      some (.list [sampleCitation1, sampleCitation2, sampleCitation3]) ∧
    Dict.get? sampleRecord "citations" = some (.list [sampleCitation1]) ∧
    sampleRecord ≠ samplePayload := by
  refine ⟨rfl, rfl, rfl, rfl, rfl, ?_⟩
  intro h
  have hlen := congrArg List.length h
  simp [sampleRecord, samplePayload] at hlen

/-- C3 (amended): construction mutates the caller's mapping in place,
but the mutation is exactly this: the `citations` and `references`
values are replaced by sublists of the original lists, the keys
`numCitations` and `numReferences` are set to the new lengths, and
every other key of the caller's mapping is left untouched. -/
theorem construct_mutation_frame
    (fetch : Fetcher) (p d : Dict) (ws : List Warning)
    (h : ArXivPaper.construct fetch (.pdict p) = .ok (d, ws)) :
    (∀ k2, k2 ≠ "citations" → k2 ≠ "references" →
      k2 ≠ "numCitations" → k2 ≠ "numReferences" →
      Dict.get? d k2 = Dict.get? p k2) ∧
    (∃ cs0 rs0 cs rs, Dict.get? p "citations" = some (.list cs0) ∧
      Dict.get? p "references" = some (.list rs0) ∧
      Dict.get? d "citations" = some (.list cs) ∧
      Dict.get? d "references" = some (.list rs) ∧
      cs.Sublist cs0 ∧ rs.Sublist rs0 ∧
      Dict.get? d "numCitations" = some (.int cs.length) ∧
      Dict.get? d "numReferences" = some (.int rs.length)) := by
  rw [construct_ok_iff] at h
  obtain ⟨d0, hcp, hva⟩ := h
  rw [checkPaper_pdict] at hcp
  simp only [Except.ok.injEq, Prod.mk.injEq] at hcp
  obtain ⟨rfl, rfl⟩ := hcp
  obtain ⟨cs0, rs0, cs1, rs1, rs2, cs2, hck, hgc, hgr, hfc, hfr, hfr2, hfc2, rfl⟩ :=
    validateAndFilter_ok hva
  constructor
  · intro k2 h1 h2 h3 h4
    rw [finalDict_get_other _ _ _ _ _ _ h1 h2 h3 h4]
  · exact ⟨cs0, rs0, cs2, rs2, hgc, hgr,
      finalDict_get_citations _ _ _ _ _, finalDict_get_references _ _ _ _ _,
      (pyFilter_sublist hfc2).trans (pyFilter_sublist hfc),
      (pyFilter_sublist hfr2).trans (pyFilter_sublist hfr),
      finalDict_get_numCitations _ _ _ _ _, finalDict_get_numReferences _ _ _ _ _⟩

theorem construct_mutation_frame_witness :
    ArXivPaper.construct emptyFetch (.pdict samplePayload) = .ok (sampleRecord, []) ∧
    ((∀ k2, k2 ≠ "citations" → k2 ≠ "references" →
      k2 ≠ "numCitations" → k2 ≠ "numReferences" →
      Dict.get? sampleRecord k2 = Dict.get? samplePayload k2) ∧
    (∃ cs0 rs0 cs rs, Dict.get? samplePayload "citations" = some (.list cs0) ∧
      Dict.get? samplePayload "references" = some (.list rs0) ∧
      Dict.get? sampleRecord "citations" = some (.list cs) ∧
      Dict.get? sampleRecord "references" = some (.list rs) ∧
      cs.Sublist cs0 ∧ rs.Sublist rs0 ∧
      Dict.get? sampleRecord "numCitations" = some (.int cs.length) ∧
      Dict.get? sampleRecord "numReferences" = some (.int rs.length))) :=
  ⟨sample_construct,
   construct_mutation_frame emptyFetch samplePayload sampleRecord [] sample_construct⟩

/-! ## Lemmas about the top-k projection -/

theorem projectInfo_ok {e : JVal} {pe : Dict} (h : ArXivPaper.projectInfo e = .ok pe) :
    ∃ f, e = .obj f ∧ pe = f.filter (fun kv => ArXivPaper.infoKeys.contains kv.1) := by
  cases e with
  | null => simp [ArXivPaper.projectInfo] at h
  | bool b => simp [ArXivPaper.projectInfo] at h
  | str s => simp [ArXivPaper.projectInfo] at h
  | int n => simp [ArXivPaper.projectInfo] at h
  | list xs => simp [ArXivPaper.projectInfo] at h
  | obj f =>
    simp only [ArXivPaper.projectInfo, Except.ok.injEq] at h
    exact ⟨f, rfl, h.symm⟩

theorem takeProject_ok_mem {xs : List JVal} {n : Nat} {infos : List Dict}
    (h : ArXivPaper.takeProject xs n = .ok infos) :
    ∀ pe ∈ infos, ∃ e ∈ xs, ArXivPaper.projectInfo e = .ok pe := by
  induction xs generalizing n infos with
  | nil =>
    cases n with
    | zero =>
      simp [ArXivPaper.takeProject] at h
      subst h
      simp
    | succ m => simp [ArXivPaper.takeProject] at h
  | cons x rest ih =>
    cases n with
    | zero =>
      simp [ArXivPaper.takeProject] at h
      subst h
      simp
    | succ m =>
      simp only [ArXivPaper.takeProject] at h
      cases hp : ArXivPaper.projectInfo x with
      | error e => simp [hp] at h
      | ok pe0 =>
        cases hr : ArXivPaper.takeProject rest m with
        | error e => simp [hp, hr] at h
        | ok tail =>
          simp [hp, hr] at h
          subst h
          intro pe hpe
          rcases List.mem_cons.mp hpe with rfl | hpe
          · exact ⟨x, List.mem_cons_self _ _, hp⟩
          · obtain ⟨e, he, hpe2⟩ := ih hr pe hpe
            exact ⟨e, List.mem_cons_of_mem x he, hpe2⟩

theorem takeProject_zero (xs : List JVal) :
    ArXivPaper.takeProject xs 0 = .ok [] := by
  cases xs <;> rfl

theorem takeProject_full {xs : List JVal}
    (hobj : ∀ e ∈ xs, ∃ f, e = .obj f) :
    ArXivPaper.takeProject xs xs.length = .ok (xs.map ArXivPaper.projFields) := by
  induction xs with
  | nil => simp [ArXivPaper.takeProject]
  | cons x rest ih =>
    have ih2 := ih (fun e he => hobj e (List.mem_cons_of_mem x he))
    obtain ⟨f, rfl⟩ := hobj x (List.mem_cons_self _ _)
    simp [ArXivPaper.takeProject, ArXivPaper.projectInfo, ih2, ArXivPaper.projFields]

theorem getTopKCitationsInformation_ok_iff {d : Dict} {k : Int}
    {infos : List Dict} {ws : List Warning} :
    ArXivPaper.getTopKCitationsInformation d k = .ok (infos, ws) ↔
    ∃ n xs, Dict.get? d "numCitations" = some (.int n) ∧
      Dict.get? d "citations" = some (.list xs) ∧
      ArXivPaper.takeProject xs (if n < k then n else k).toNat = .ok infos ∧
      (if n < k then [Warning.clampCitations n] else []) = ws := by
  unfold ArXivPaper.getTopKCitationsInformation Dict.getItem
  cases hn : Dict.get? d "numCitations" with
  | none => simp
  | some v =>
    cases v with
    | null => simp
    | bool b => simp
    | str s => simp
    | int n =>
      cases hc : Dict.get? d "citations" with
      | none => simp
      | some w =>
        cases w with
        | null => simp
        | bool b => simp
        | str s => simp
        | int m => simp
        | list xs =>
          cases ht : ArXivPaper.takeProject xs (if n < k then n else k).toNat with
          | error e => simp [ht]
          | ok infos2 => simp [ht]
        | obj fs => simp
    | list xs => simp
    | obj fs => simp

theorem getTopKReferencesInformation_ok_iff {d : Dict} {k : Int}
    {infos : List Dict} {ws : List Warning} :
    ArXivPaper.getTopKReferencesInformation d k = .ok (infos, ws) ↔
    ∃ n xs, Dict.get? d "numReferences" = some (.int n) ∧
      Dict.get? d "references" = some (.list xs) ∧
      ArXivPaper.takeProject xs (if n < k then n else k).toNat = .ok infos ∧
      (if n < k then [Warning.clampReferences n] else []) = ws := by
  unfold ArXivPaper.getTopKReferencesInformation Dict.getItem
  cases hn : Dict.get? d "numReferences" with
  | none => simp
  | some v =>
    cases v with
    | null => simp
    | bool b => simp
    | str s => simp
    | int n =>
      cases hc : Dict.get? d "references" with
      | none => simp
      | some w =>
        cases w with
        | null => simp
        | bool b => simp
        | str s => simp
        | int m => simp
        | list xs =>
          cases ht : ArXivPaper.takeProject xs (if n < k then n else k).toNat with
          | error e => simp [ht]
          | ok infos2 => simp [ht]
        | obj fs => simp
    | list xs => simp
    | obj fs => simp

/-- A surviving citation entry carrying only `isInfluential` and
`arxivId` — none of the other projection keys. -/
def thinCitation : JVal :=
  .obj [("isInfluential", .bool true), ("arxivId", .str "4444.0004")]

/-- A payload whose single citation entry is `thinCitation`. -/
def payloadC4 : Dict :=
  [("abstract", .str "a"), ("arxivId", .str "0000.0004"), ("authors", .list []),
   ("citations", .list [thinCitation]),
   ("influentialCitationCount", .int 1), ("doi", .str "d"), ("fieldsOfStudy", .list []),
   ("paperId", .str "p4"), ("references", .list []),
   ("title", .str "t4"), ("topics", .list []), ("url", .str "u4"),
   ("venue", .str "v4"), ("year", .int 2021)]

/-- The validated record for `payloadC4`. -/
def recordC4 : Dict :=
  payloadC4 ++ [("numReferences", .int 0), ("numCitations", .int 1)]

theorem payloadC4_construct :
    ArXivPaper.construct emptyFetch (.pdict payloadC4) = .ok (recordC4, []) := rfl

/-- C4 (counterexample): the projection does not always return all six
keys.  `recordC4` is a validated record whose single citation entry
lacks `title`; `get_top_k_citations_information(1)` returns an entry
containing only `arxivId`, although `title` is one of the six
`info_keys`. -/
theorem topk_projection_counterexample :
    ArXivPaper.construct emptyFetch (.pdict payloadC4) = .ok (recordC4, []) ∧
    ArXivPaper.getTopKCitationsInformation recordC4 1 =
      .ok ([[("arxivId", .str "4444.0004")]], []) ∧
    Dict.hasKey [("arxivId", JVal.str "4444.0004")] "title" = false ∧
    "title" ∈ ArXivPaper.infoKeys :=
  ⟨rfl, rfl, rfl, by simp [ArXivPaper.infoKeys]⟩

/-- C4 (amended): every entry returned by the two `information` methods
is the key-filter of the stored entry it came from: all of its keys lie
in {arxivId, authors, title, url, venue, year}, no key outside that set
survives, and a key of that set missing from the stored entry is
missing from the returned entry too. -/
theorem topk_information_projection (d : Dict) (k : Int) :
    (∀ infos ws, ArXivPaper.getTopKCitationsInformation d k = .ok (infos, ws) →
      ∃ xs, Dict.get? d "citations" = some (.list xs) ∧
        ∀ pe ∈ infos, (∀ kv ∈ pe, ArXivPaper.infoKeys.contains kv.1 = true) ∧
          ∃ f, (JVal.obj f) ∈ xs ∧
            pe = f.filter (fun kv => ArXivPaper.infoKeys.contains kv.1)) ∧
    (∀ infos ws, ArXivPaper.getTopKReferencesInformation d k = .ok (infos, ws) →
      ∃ xs, Dict.get? d "references" = some (.list xs) ∧
        ∀ pe ∈ infos, (∀ kv ∈ pe, ArXivPaper.infoKeys.contains kv.1 = true) ∧
          ∃ f, (JVal.obj f) ∈ xs ∧
            pe = f.filter (fun kv => ArXivPaper.infoKeys.contains kv.1)) := by
  constructor
  · intro infos ws h
    rw [getTopKCitationsInformation_ok_iff] at h
    obtain ⟨n, xs, hn, hc, ht, hw⟩ := h
    refine ⟨xs, hc, ?_⟩
    intro pe hpe
    obtain ⟨e, he, hproj⟩ := takeProject_ok_mem ht pe hpe
    obtain ⟨f, rfl, rfl⟩ := projectInfo_ok hproj
    refine ⟨fun kv hkv => by simpa using List.of_mem_filter hkv, f, he, rfl⟩
  · intro infos ws h
    rw [getTopKReferencesInformation_ok_iff] at h
    obtain ⟨n, xs, hn, hc, ht, hw⟩ := h
    refine ⟨xs, hc, ?_⟩
    intro pe hpe
    obtain ⟨e, he, hproj⟩ := takeProject_ok_mem ht pe hpe
    obtain ⟨f, rfl, rfl⟩ := projectInfo_ok hproj
    refine ⟨fun kv hkv => by simpa using List.of_mem_filter hkv, f, he, rfl⟩

theorem topk_information_projection_witness :
    ArXivPaper.getTopKCitationsInformation recordC4 1 =
      .ok ([[("arxivId", .str "4444.0004")]], []) ∧
    (∃ xs, Dict.get? recordC4 "citations" = some (.list xs) ∧
      ∀ pe ∈ [[("arxivId", JVal.str "4444.0004")]],
        (∀ kv ∈ pe, ArXivPaper.infoKeys.contains kv.1 = true) ∧
        ∃ f, (JVal.obj f) ∈ xs ∧
          pe = f.filter (fun kv => ArXivPaper.infoKeys.contains kv.1)) :=
  ⟨rfl, (topk_information_projection recordC4 1).1 [[("arxivId", JVal.str "4444.0004")]] [] rfl⟩

/-- C5: a payload missing one or more essential keys is rejected by
construction with a single error naming exactly the missing keys (the
`KeyError` message joins all of them, not just the first). -/
theorem construct_missing_keys_all_named
    (fetch : Fetcher) (d : Dict) (ms : List String)
    (hms : ms = ArXivPaper.essentialMetadataKeys.filter (fun k => !(Dict.hasKey d k)))
    (hne : ms ≠ []) :
    ArXivPaper.construct fetch (.pdict d) = .error (.missingKeysError ms) ∧
    ∀ k2, k2 ∈ ms ↔
      (k2 ∈ ArXivPaper.essentialMetadataKeys ∧ Dict.hasKey d k2 = false) := by
  have hck := checkRelevantKeys_missing hms hne
  constructor
  · exact construct_pdict_error (validateAndFilter_error_checkKeys hck)
  · intro k2
    subst hms
    simp [List.mem_filter]

/-- `samplePayload` with its `references` and `venue` keys dropped. -/
def payloadC5 : Dict :=
  [("abstract", .str "a"), ("arxivId", .str "0000.0000"), ("authors", .list []),
   ("citations", .list [sampleCitation1, sampleCitation2, sampleCitation3]),
   ("influentialCitationCount", .int 1), ("doi", .str "d"), ("fieldsOfStudy", .list []),
   ("paperId", .str "p"), ("title", .str "t"), ("topics", .list []),
   ("url", .str "u"), ("year", .int 2020)]

theorem construct_missing_keys_all_named_witness :
    (["references", "venue"] : List String) =
      ArXivPaper.essentialMetadataKeys.filter (fun k => !(Dict.hasKey payloadC5 k)) ∧
    (["references", "venue"] : List String) ≠ [] ∧
    (ArXivPaper.construct emptyFetch (.pdict payloadC5) =
      .error (.missingKeysError ["references", "venue"]) ∧
    ∀ k2, k2 ∈ (["references", "venue"] : List String) ↔
      (k2 ∈ ArXivPaper.essentialMetadataKeys ∧ Dict.hasKey payloadC5 k2 = false)) :=
  ⟨rfl, by simp,
   construct_missing_keys_all_named emptyFetch payloadC5 ["references", "venue"]
     rfl (by simp)⟩

/-- C6: on a validated record, asking for more neighbors than the
filtered count clamps to that count, returns the whole projected
filtered collection in its original order, and emits the clamp warning;
asking for zero returns the empty list and no warning.  Both the
citation and the reference axis behave this way. -/
theorem topk_clamp_behavior
    (fetch : Fetcher) (src : Source) (d : Dict) (ws : List Warning)
    (h : ArXivPaper.construct fetch src = .ok (d, ws)) :
    ∃ cs rs,
      Dict.get? d "citations" = some (.list cs) ∧
      Dict.get? d "references" = some (.list rs) ∧
      Dict.get? d "numCitations" = some (.int cs.length) ∧
      Dict.get? d "numReferences" = some (.int rs.length) ∧
      (∀ k : Int, (cs.length : Int) < k →
        ArXivPaper.getTopKCitationsInformation d k =
          .ok (cs.map ArXivPaper.projFields, [.clampCitations cs.length]) ∧
        (cs.map ArXivPaper.projFields).length = cs.length) ∧
      ArXivPaper.getTopKCitationsInformation d 0 = .ok ([], []) ∧
      (∀ k : Int, (rs.length : Int) < k →
        ArXivPaper.getTopKReferencesInformation d k =
          .ok (rs.map ArXivPaper.projFields, [.clampReferences rs.length]) ∧
        (rs.map ArXivPaper.projFields).length = rs.length) ∧
      ArXivPaper.getTopKReferencesInformation d 0 = .ok ([], []) := by
  rw [construct_ok_iff] at h
  obtain ⟨d0, hcp, hva⟩ := h
  obtain ⟨cs0, rs0, cs1, rs1, rs2, cs2, hck, hgc, hgr, hfc, hfr, hfr2, hfc2, rfl⟩ :=
    validateAndFilter_ok hva
  have hcsobj : ∀ e ∈ cs2, ∃ f, e = .obj f := by
    intro e he
    obtain ⟨-, hax⟩ := pyFilter_ok_mem hfc2 e he
    obtain ⟨f, v, rfl, -, -⟩ := entryArxivNotNone_ok_val hax
    exact ⟨f, rfl⟩
  have hrsobj : ∀ e ∈ rs2, ∃ f, e = .obj f := by
    intro e he
    obtain ⟨-, hax⟩ := pyFilter_ok_mem hfr2 e he
    obtain ⟨f, v, rfl, -, -⟩ := entryArxivNotNone_ok_val hax
    exact ⟨f, rfl⟩
  refine ⟨cs2, rs2, finalDict_get_citations _ _ _ _ _, finalDict_get_references _ _ _ _ _,
    finalDict_get_numCitations _ _ _ _ _, finalDict_get_numReferences _ _ _ _ _,
    ?_, ?_, ?_, ?_⟩
  · intro k hk
    constructor
    · rw [getTopKCitationsInformation_ok_iff]
      refine ⟨(cs2.length : Int), cs2, finalDict_get_numCitations _ _ _ _ _,
        finalDict_get_citations _ _ _ _ _, ?_, ?_⟩
      · rw [if_pos hk]
        rw [Int.toNat_natCast]
        exact takeProject_full hcsobj
      · rw [if_pos hk]
    · simp
  · rw [getTopKCitationsInformation_ok_iff]
    refine ⟨(cs2.length : Int), cs2, finalDict_get_numCitations _ _ _ _ _,
      finalDict_get_citations _ _ _ _ _, ?_, ?_⟩
    · rw [if_neg (by exact Int.not_lt.mpr (Int.natCast_nonneg _))]
      exact takeProject_zero cs2
    · rw [if_neg (by exact Int.not_lt.mpr (Int.natCast_nonneg _))]
  · intro k hk
    constructor
    · rw [getTopKReferencesInformation_ok_iff]
      refine ⟨(rs2.length : Int), rs2, finalDict_get_numReferences _ _ _ _ _,
        finalDict_get_references _ _ _ _ _, ?_, ?_⟩
      · rw [if_pos hk]
        rw [Int.toNat_natCast]
        exact takeProject_full hrsobj
      · rw [if_pos hk]
    · simp
  · rw [getTopKReferencesInformation_ok_iff]
    refine ⟨(rs2.length : Int), rs2, finalDict_get_numReferences _ _ _ _ _,
      finalDict_get_references _ _ _ _ _, ?_, ?_⟩
    · rw [if_neg (by exact Int.not_lt.mpr (Int.natCast_nonneg _))]
      exact takeProject_zero rs2
    · rw [if_neg (by exact Int.not_lt.mpr (Int.natCast_nonneg _))]

theorem topk_clamp_behavior_witness :
    ArXivPaper.construct emptyFetch (.pdict samplePayload) = .ok (sampleRecord, []) ∧
    (∃ cs rs,
      Dict.get? sampleRecord "citations" = some (.list cs) ∧
      Dict.get? sampleRecord "references" = some (.list rs) ∧
      Dict.get? sampleRecord "numCitations" = some (.int cs.length) ∧
      Dict.get? sampleRecord "numReferences" = some (.int rs.length) ∧
      (∀ k : Int, (cs.length : Int) < k →
        ArXivPaper.getTopKCitationsInformation sampleRecord k =
          .ok (cs.map ArXivPaper.projFields, [.clampCitations cs.length]) ∧
        (cs.map ArXivPaper.projFields).length = cs.length) ∧
      ArXivPaper.getTopKCitationsInformation sampleRecord 0 = .ok ([], []) ∧
      (∀ k : Int, (rs.length : Int) < k →
        ArXivPaper.getTopKReferencesInformation sampleRecord k =
          .ok (rs.map ArXivPaper.projFields, [.clampReferences rs.length]) ∧
        (rs.map ArXivPaper.projFields).length = rs.length) ∧
      ArXivPaper.getTopKReferencesInformation sampleRecord 0 = .ok ([], [])) :=
  ⟨sample_construct,
   topk_clamp_behavior emptyFetch (.pdict samplePayload) sampleRecord [] sample_construct⟩

/-- C7: `check_paper` dispatch on the dynamic type of the source: a
value that is neither a string nor a dict fails with the `TypeError`;
a string is resolved through the external fetcher, adding only the
non-fatal missing-in-cache warning (a fetch failure propagates
unchanged); a dict proceeds straight to validation, independent of the
fetcher and without that warning. -/
theorem construct_source_dispatch
    (fetch fetch2 : Fetcher) (s : String) (p d1 : Dict) (e : ConstructError)
    (ws : List Warning) :
    ArXivPaper.construct fetch .other =
      .error (.typeError "Paper must be a Dict or an Arxiv Id") ∧
    (fetch s = .ok p → ArXivPaper.validateAndFilter p = .ok d1 →
      ArXivPaper.construct fetch (.pstr s) = .ok (d1, [Warning.missingInCache]) ∧
      ArXivPaper.construct fetch (.pdict p) = .ok (d1, [])) ∧
    (fetch s = .error e → ArXivPaper.construct fetch (.pstr s) = .error e) ∧
    ArXivPaper.construct fetch (.pdict p) = ArXivPaper.construct fetch2 (.pdict p) ∧
    (ArXivPaper.construct fetch (.pdict p) = .ok (d1, ws) → ws = []) := by
  refine ⟨?_, ?_, ?_, ?_, ?_⟩
  · unfold ArXivPaper.construct
    rw [exceptBind_error_of_error _ (checkPaper_other fetch)]
  · intro hf hv
    constructor
    · rw [construct_ok_iff]
      exact ⟨p, checkPaper_pstr_ok hf, hv⟩
    · rw [construct_ok_iff]
      exact ⟨p, checkPaper_pdict fetch p, hv⟩
  · intro hf
    unfold ArXivPaper.construct
    rw [exceptBind_error_of_error _ (checkPaper_pstr_error hf)]
  · unfold ArXivPaper.construct
    rw [checkPaper_pdict, checkPaper_pdict]
  · intro h
    rw [construct_ok_iff] at h
    obtain ⟨d0, hcp, -⟩ := h
    rw [checkPaper_pdict] at hcp
    simp only [Except.ok.injEq, Prod.mk.injEq] at hcp
    exact hcp.2.symm

/-- A fetcher that returns `samplePayload` for every identifier. -/
def sampleFetch : Fetcher := fun _ => .ok samplePayload

theorem construct_source_dispatch_witness :
    ArXivPaper.construct sampleFetch .other =
      .error (.typeError "Paper must be a Dict or an Arxiv Id") ∧
    ArXivPaper.construct sampleFetch (.pstr "0000.0000") =
      .ok (sampleRecord, [Warning.missingInCache]) ∧
    ArXivPaper.construct emptyFetch (.pstr "0000.0000") =
      .error (.fetchFailure "network unavailable") ∧
    ArXivPaper.construct sampleFetch (.pdict samplePayload) =
      ArXivPaper.construct emptyFetch (.pdict samplePayload) :=
  ⟨(construct_source_dispatch sampleFetch emptyFetch "0000.0000" samplePayload
      sampleRecord (.fetchFailure "network unavailable") []).1,
   ((construct_source_dispatch sampleFetch emptyFetch "0000.0000" samplePayload
      sampleRecord (.fetchFailure "network unavailable") []).2.1 rfl rfl).1,
   (construct_source_dispatch emptyFetch emptyFetch "0000.0000" samplePayload
      sampleRecord (.fetchFailure "network unavailable") []).2.2.1 rfl,
   (construct_source_dispatch sampleFetch emptyFetch "0000.0000" samplePayload
      sampleRecord (.fetchFailure "network unavailable") []).2.2.2.1⟩

/-- C9: a GraphNode whose record has `numCitations == 0` is a citation
leaf: `get_citation_children` is a no-op and `citation_children` stays
absent (`None`, not empty); symmetric on the reference axis. -/
theorem graphnode_leaf_expansion_noop (p : Dict) (nc nr : Int) :
    (Dict.get? p "numCitations" = some (.int 0) →
      (GraphNode.make p nc nr).getCitationChildren =
        .ok (GraphNode.make p nc nr, []) ∧
      (GraphNode.make p nc nr).citation_children = none) ∧
    (Dict.get? p "numReferences" = some (.int 0) →
      (GraphNode.make p nc nr).getReferenceChildren =
        .ok (GraphNode.make p nc nr, []) ∧
      (GraphNode.make p nc nr).reference_children = none) := by
  constructor
  · intro h
    constructor
    · simp [GraphNode.getCitationChildren, GraphNode.isCitationLeaf, Dict.getItem,
        GraphNode.make, h, JVal.pyEqZero]
    · rfl
  · intro h
    constructor
    · simp [GraphNode.getReferenceChildren, GraphNode.isReferenceLeaf, Dict.getItem,
        GraphNode.make, h, JVal.pyEqZero]
    · rfl

/-- A payload whose only citation entry is non-influential and whose
reference list is empty: both filtered collections come out empty. -/
def payloadC9 : Dict :=
  [("abstract", .str "a"), ("arxivId", .str "0000.0009"), ("authors", .list []),
   ("citations", .list [sampleCitation2]),
   ("influentialCitationCount", .int 0), ("doi", .str "d"), ("fieldsOfStudy", .list []),
   ("paperId", .str "p9"), ("references", .list []),
   ("title", .str "t9"), ("topics", .list []), ("url", .str "u9"),
   ("venue", .str "v9"), ("year", .int 2022)]

/-- The validated record for `payloadC9`: empty collections, zero counts. -/
def recordC9 : Dict :=
  [("abstract", .str "a"), ("arxivId", .str "0000.0009"), ("authors", .list []),
   ("citations", .list []),
   ("influentialCitationCount", .int 0), ("doi", .str "d"), ("fieldsOfStudy", .list []),
   ("paperId", .str "p9"), ("references", .list []),
   ("title", .str "t9"), ("topics", .list []), ("url", .str "u9"),
   ("venue", .str "v9"), ("year", .int 2022),
   ("numReferences", .int 0), ("numCitations", .int 0)]

theorem payloadC9_construct :
    ArXivPaper.construct emptyFetch (.pdict payloadC9) = .ok (recordC9, []) := rfl

theorem graphnode_leaf_expansion_noop_witness :
    Dict.get? recordC9 "numCitations" = some (.int 0) ∧
    Dict.get? recordC9 "numReferences" = some (.int 0) ∧
    ((GraphNode.make recordC9 1 1).getCitationChildren =
        .ok (GraphNode.make recordC9 1 1, []) ∧
      (GraphNode.make recordC9 1 1).citation_children = none) ∧
    ((GraphNode.make recordC9 1 1).getReferenceChildren =
        .ok (GraphNode.make recordC9 1 1, []) ∧
      (GraphNode.make recordC9 1 1).reference_children = none) :=
  ⟨rfl, rfl,
   (graphnode_leaf_expansion_noop recordC9 1 1).1 rfl,
   (graphnode_leaf_expansion_noop recordC9 1 1).2 rfl⟩

/-! ## Lemmas about the metadata materialization -/

theorem getTopKCitationsInformation_congr {da db : Dict} (k : Int)
    (h1 : Dict.get? da "citations" = Dict.get? db "citations")
    (h2 : Dict.get? da "numCitations" = Dict.get? db "numCitations") :
    ArXivPaper.getTopKCitationsInformation da k =
      ArXivPaper.getTopKCitationsInformation db k := by
  unfold ArXivPaper.getTopKCitationsInformation Dict.getItem
  rw [h1, h2]

theorem getTopKReferencesInformation_congr {da db : Dict} (k : Int)
    (h1 : Dict.get? da "references" = Dict.get? db "references")
    (h2 : Dict.get? da "numReferences" = Dict.get? db "numReferences") :
    ArXivPaper.getTopKReferencesInformation da k =
      ArXivPaper.getTopKReferencesInformation db k := by
  unfold ArXivPaper.getTopKReferencesInformation Dict.getItem
  rw [h1, h2]

theorem getTopKCitationsMetadata_eq {fetch : Fetcher} {d : Dict} {k : Int}
    {infos papers : List Dict} {ws ws2 : List Warning}
    (hi : ArXivPaper.getTopKCitationsInformation d k = .ok (infos, ws))
    (hb : ArXivPaper.buildPapers fetch infos = .ok (papers, ws2)) :
    ArXivPaper.getTopKCitationsMetadata fetch d k = .ok (papers, ws ++ ws2) := by
  unfold ArXivPaper.getTopKCitationsMetadata
  rw [hi]
  simp [hb]

theorem getTopKReferencesMetadata_eq {fetch : Fetcher} {d : Dict} {k : Int}
    {infos papers : List Dict} {ws ws2 : List Warning}
    (hi : ArXivPaper.getTopKReferencesInformation d k = .ok (infos, ws))
    (hb : ArXivPaper.buildPapers fetch infos = .ok (papers, ws2)) :
    ArXivPaper.getTopKReferencesMetadata fetch d k = .ok (papers, ws ++ ws2) := by
  unfold ArXivPaper.getTopKReferencesMetadata
  rw [hi]
  simp [hb]

theorem buildPapers_ok_nth {fetch : Fetcher} {infos papers : List Dict}
    {ws : List Warning}
    (h : ArXivPaper.buildPapers fetch infos = .ok (papers, ws)) :
    papers.length = infos.length ∧
    ∀ i : Nat, ∀ hi : i < infos.length, ∀ hp : i < papers.length,
      ∃ a ws1, Dict.get? (infos.get ⟨i, hi⟩) "arxivId" = some a ∧
        ArXivPaper.construct fetch (ArXivPaper.sourceOfJVal a) =
          .ok (papers.get ⟨i, hp⟩, ws1) := by
  induction infos generalizing papers ws with
  | nil =>
    simp [ArXivPaper.buildPapers] at h
    obtain ⟨rfl, rfl⟩ := h
    simp
  | cons info rest ih =>
    simp only [ArXivPaper.buildPapers, Dict.getItem] at h
    cases hg : Dict.get? info "arxivId" with
    | none => simp [hg] at h
    | some a =>
      cases hcon : ArXivPaper.construct fetch (ArXivPaper.sourceOfJVal a) with
      | error e => simp [hg, hcon] at h
      | ok cw =>
        obtain ⟨child, ws1⟩ := cw
        cases hrest : ArXivPaper.buildPapers fetch rest with
        | error e => simp [hg, hcon, hrest] at h
        | ok tw =>
          obtain ⟨tail, ws2⟩ := tw
          simp [hg, hcon, hrest] at h
          obtain ⟨rfl, rfl⟩ := h
          obtain ⟨hlen, hnth⟩ := ih hrest
          constructor
          · simp [hlen]
          · intro i hi hp
            cases i with
            | zero => exact ⟨a, ws1, hg, hcon⟩
            | succ j =>
              exact hnth j (by simpa using hi) (by simpa using hp)

/-- C8: `get_top_k_citations_metadata` reads only the citation axis of
the record (`citations` and `numCitations`) — never the reference
collection — and builds, in selection order, one child record per
selected citation entry, each constructed from that entry's `arxivId`;
symmetrically the reference variant reads only the reference axis. -/
theorem topk_metadata_axis_and_order
    (fetch : Fetcher) (d d2 : Dict) (k : Int) :
    (Dict.get? d "citations" = Dict.get? d2 "citations" →
      Dict.get? d "numCitations" = Dict.get? d2 "numCitations" →
      ArXivPaper.getTopKCitationsMetadata fetch d k =
        ArXivPaper.getTopKCitationsMetadata fetch d2 k) ∧
    (Dict.get? d "references" = Dict.get? d2 "references" →
      Dict.get? d "numReferences" = Dict.get? d2 "numReferences" →
      ArXivPaper.getTopKReferencesMetadata fetch d k =
        ArXivPaper.getTopKReferencesMetadata fetch d2 k) ∧
    (∀ infos ws papers ws2,
      ArXivPaper.getTopKCitationsInformation d k = .ok (infos, ws) →
      ArXivPaper.buildPapers fetch infos = .ok (papers, ws2) →
      ArXivPaper.getTopKCitationsMetadata fetch d k = .ok (papers, ws ++ ws2) ∧
      papers.length = infos.length ∧
      ∀ i : Nat, ∀ hi : i < infos.length, ∀ hp : i < papers.length,
        ∃ a ws1, Dict.get? (infos.get ⟨i, hi⟩) "arxivId" = some a ∧
          ArXivPaper.construct fetch (ArXivPaper.sourceOfJVal a) =
            .ok (papers.get ⟨i, hp⟩, ws1)) ∧
    (∀ infos ws papers ws2,
      ArXivPaper.getTopKReferencesInformation d k = .ok (infos, ws) →
      ArXivPaper.buildPapers fetch infos = .ok (papers, ws2) →
      ArXivPaper.getTopKReferencesMetadata fetch d k = .ok (papers, ws ++ ws2) ∧
      papers.length = infos.length ∧
      ∀ i : Nat, ∀ hi : i < infos.length, ∀ hp : i < papers.length,
        ∃ a ws1, Dict.get? (infos.get ⟨i, hi⟩) "arxivId" = some a ∧
          ArXivPaper.construct fetch (ArXivPaper.sourceOfJVal a) =
            .ok (papers.get ⟨i, hp⟩, ws1)) := by
  refine ⟨?_, ?_, ?_, ?_⟩
  · intro h1 h2
    unfold ArXivPaper.getTopKCitationsMetadata
    rw [getTopKCitationsInformation_congr k h1 h2]
  · intro h1 h2
    unfold ArXivPaper.getTopKReferencesMetadata
    rw [getTopKReferencesInformation_congr k h1 h2]
  · intro infos ws papers ws2 hi hb
    obtain ⟨hlen, hnth⟩ := buildPapers_ok_nth hb
    exact ⟨getTopKCitationsMetadata_eq hi hb, hlen, hnth⟩
  · intro infos ws papers ws2 hi hb
    obtain ⟨hlen, hnth⟩ := buildPapers_ok_nth hb
    exact ⟨getTopKReferencesMetadata_eq hi hb, hlen, hnth⟩

/-- A fetcher that returns `payloadC9` for every identifier, so every
child construction succeeds. -/
def childFetch : Fetcher := fun _ => .ok payloadC9

/-- The projection of `sampleCitation1` to the six `info_keys`. -/
def sampleCitation1Info : Dict :=
  [("arxivId", .str "1111.0001"), ("title", .str "C one"), ("authors", .list []),
   ("url", .str "u1"), ("venue", .str "v1"), ("year", .int 2019)]

/-- `sampleRecord` with its reference axis emptied, used to check that
the citation-metadata path never reads it. -/
def sampleRecordAltRefs : Dict :=
  (sampleRecord.set "references" (.list [])).set "numReferences" (.int 0)

theorem topk_metadata_axis_and_order_witness :
    ArXivPaper.getTopKCitationsInformation sampleRecord 1 =
      .ok ([sampleCitation1Info], []) ∧
    ArXivPaper.buildPapers childFetch [sampleCitation1Info] =
      .ok ([recordC9], [Warning.missingInCache]) ∧
    ArXivPaper.getTopKCitationsMetadata childFetch sampleRecord 1 =
      .ok ([recordC9], [] ++ [Warning.missingInCache]) ∧
    ArXivPaper.getTopKCitationsMetadata childFetch sampleRecordAltRefs 1 =
      ArXivPaper.getTopKCitationsMetadata childFetch sampleRecord 1 :=
  ⟨rfl, rfl,
   ((topk_metadata_axis_and_order childFetch sampleRecord sampleRecord 1).2.2.1
      [sampleCitation1Info] [] [recordC9] [Warning.missingInCache] rfl rfl).1,
   (topk_metadata_axis_and_order childFetch sampleRecordAltRefs sampleRecord 1).1
      rfl rfl⟩

/-- A payload whose single citation entry is non-influential and lacks
`arxivId` entirely (the reference list is empty). -/
def payloadC10 : Dict :=
  [("abstract", .str "a"), ("arxivId", .str "0000.0010"), ("authors", .list []),
   ("citations", .list [.obj [("isInfluential", .bool false)]]),
   ("influentialCitationCount", .int 0), ("doi", .str "d"), ("fieldsOfStudy", .list []),
   ("paperId", .str "p10"), ("references", .list []),
   ("title", .str "t10"), ("topics", .list []), ("url", .str "u10"),
   ("venue", .str "v10"), ("year", .int 2023)]

/-- The validated record for `payloadC10`. -/
def recordC10 : Dict :=
  [("abstract", .str "a"), ("arxivId", .str "0000.0010"), ("authors", .list []),
   ("citations", .list []),
   ("influentialCitationCount", .int 0), ("doi", .str "d"), ("fieldsOfStudy", .list []),
   ("paperId", .str "p10"), ("references", .list []),
   ("title", .str "t10"), ("topics", .list []), ("url", .str "u10"),
   ("venue", .str "v10"), ("year", .int 2023),
   ("numReferences", .int 0), ("numCitations", .int 0)]

/-- `payloadC10` with the citation entry replaced by an empty dict (no
`isInfluential` key at all). -/
def payloadC10b : Dict :=
  [("abstract", .str "a"), ("arxivId", .str "0000.0010"), ("authors", .list []),
   ("citations", .list [.obj []]),
   ("influentialCitationCount", .int 0), ("doi", .str "d"), ("fieldsOfStudy", .list []),
   ("paperId", .str "p10"), ("references", .list []),
   ("title", .str "t10"), ("topics", .list []), ("url", .str "u10"),
   ("venue", .str "v10"), ("year", .int 2023)]

/-- C10 (counterexample): a payload can pass Invariant A, contain a
citation entry with no `arxivId` key at all, and still construct
successfully — the influence filter removes the entry before the
`arxivId` lookup ever runs.  So requiring both keys of every entry is
not what the code enforces. -/
theorem neighbor_keys_counterexample :
    ArXivPaper.checkRelevantKeys payloadC10 = .ok () ∧
    Dict.get? payloadC10 "citations" =
      some (.list [.obj [("isInfluential", .bool false)]]) ∧
    Dict.hasKey [("isInfluential", JVal.bool false)] "arxivId" = false ∧
    ArXivPaper.construct emptyFetch (.pdict payloadC10) = .ok (recordC10, []) :=
  ⟨rfl, rfl, rfl, rfl⟩

/-- C10 (amended): passing Invariant A is indeed not sufficient.  What
construction additionally requires of every entry of the raw
`citations` and `references` lists is: the entry is a dict containing
`isInfluential`, and, when `isInfluential` is the boolean `True`, it
also contains `arxivId`.  An entry lacking `isInfluential` makes
construction fail with the key-lookup error from inside the filtering
steps; an entry whose `isInfluential` is not `True` may lack `arxivId`
without harm. -/
theorem construct_neighbor_key_requirements
    (fetch : Fetcher) (p d : Dict) (ws : List Warning) :
    (ArXivPaper.construct fetch (.pdict p) = .ok (d, ws) →
      ∀ xs, (Dict.get? p "citations" = some (.list xs) ∨
             Dict.get? p "references" = some (.list xs)) →
        ∀ e ∈ xs, ∃ f v, e = .obj f ∧
          Dict.get? f "isInfluential" = some v ∧
          (v = .bool true → ∃ a, Dict.get? f "arxivId" = some a)) ∧
    (∀ xs, ArXivPaper.checkRelevantKeys p = .ok () →
      Dict.get? p "citations" = some (.list xs) →
      (∀ e ∈ xs, ∃ f, e = .obj f) →
      (∃ e ∈ xs, ∃ f, e = .obj f ∧ Dict.get? f "isInfluential" = none) →
      ArXivPaper.construct fetch (.pdict p) = .error (.keyError "isInfluential")) := by
  constructor
  · intro h xs hx e he
    rw [construct_ok_iff] at h
    obtain ⟨d0, hcp, hva⟩ := h
    rw [checkPaper_pdict] at hcp
    simp only [Except.ok.injEq, Prod.mk.injEq] at hcp
    obtain ⟨rfl, rfl⟩ := hcp
    obtain ⟨cs0, rs0, cs1, rs1, rs2, cs2, hck, hgc, hgr, hfc, hfr, hfr2, hfc2, hd⟩ :=
      validateAndFilter_ok hva
    rcases hx with hx | hx
    · rw [hx] at hgc
      simp only [Option.some.injEq, JVal.list.injEq] at hgc
      subst hgc
      obtain ⟨b, hb⟩ := pyFilter_ok_input hfc e he
      obtain ⟨f, v, rfl, hv, hbv⟩ := entryIsInfluential_ok_val hb
      refine ⟨f, v, rfl, hv, ?_⟩
      intro hvt
      subst hvt
      have hbt : b = true := by simpa [JVal.pyIsTrue] using hbv.symm
      subst hbt
      have hmem1 := pyFilter_ok_keeps hfc _ he hb
      obtain ⟨b2, hb2⟩ := pyFilter_ok_input hfc2 _ hmem1
      obtain ⟨f2, v2, heq, ha, -⟩ := entryArxivNotNone_ok_val hb2
      injection heq with heq2
      subst heq2
      exact ⟨v2, ha⟩
    · rw [hx] at hgr
      simp only [Option.some.injEq, JVal.list.injEq] at hgr
      subst hgr
      obtain ⟨b, hb⟩ := pyFilter_ok_input hfr e he
      obtain ⟨f, v, rfl, hv, hbv⟩ := entryIsInfluential_ok_val hb
      refine ⟨f, v, rfl, hv, ?_⟩
      intro hvt
      subst hvt
      have hbt : b = true := by simpa [JVal.pyIsTrue] using hbv.symm
      subst hbt
      have hmem1 := pyFilter_ok_keeps hfr _ he hb
      obtain ⟨b2, hb2⟩ := pyFilter_ok_input hfr2 _ hmem1
      obtain ⟨f2, v2, heq, ha, -⟩ := entryArxivNotNone_ok_val hb2
      injection heq with heq2
      subst heq2
      exact ⟨v2, ha⟩
  · intro xs hck hgc hobj hbad
    have hferr : pyFilter entryIsInfluential xs = .error (.keyError "isInfluential") := by
      apply pyFilter_error
      · intro x hxm
        obtain ⟨f, rfl⟩ := hobj x hxm
        cases hg : Dict.get? f "isInfluential" with
        | none => exact Or.inr (entryIsInfluential_error_of_missing hg)
        | some v => exact Or.inl ⟨v.pyIsTrue, by simp [entryIsInfluential, hg]⟩
      · obtain ⟨e, he, f, rfl, hg⟩ := hbad
        exact ⟨.obj f, he, entryIsInfluential_error_of_missing hg⟩
    exact construct_pdict_error (validateAndFilter_error_citationFilter hck hgc hferr)

theorem construct_neighbor_key_requirements_witness :
    ArXivPaper.construct emptyFetch (.pdict payloadC10) = .ok (recordC10, []) ∧
    (∀ e ∈ [JVal.obj [("isInfluential", JVal.bool false)]], ∃ f v, e = .obj f ∧
        Dict.get? f "isInfluential" = some v ∧
        (v = .bool true → ∃ a, Dict.get? f "arxivId" = some a)) ∧
    ArXivPaper.construct emptyFetch (.pdict payloadC10b) =
      .error (.keyError "isInfluential") :=
  ⟨rfl,
   (construct_neighbor_key_requirements emptyFetch payloadC10 recordC10 []).1 rfl
      [JVal.obj [("isInfluential", JVal.bool false)]] (Or.inl rfl),
   (construct_neighbor_key_requirements emptyFetch payloadC10b recordC10 []).2
      [JVal.obj []] rfl rfl
      (by
        intro e he
        simp at he
        subst he
        exact ⟨[], rfl⟩)
      ⟨.obj [], by simp, [], rfl, rfl⟩⟩
